import Mathlib

/-!
Verification development for the InfoSchema engine of a distributed SQL
database (TiDB's `pkg/infoschema`).  The repository ships the engine's test
suite (`infoschema_test.go`); the engine itself (Builder, Snapshot, session
overlay, meta-schema synthesizer) is specified in `spec.md`.  The
definitions below are a shallow embedding of that engine, modelled from the
spec and exercised against the behaviours the test suite pins down.
-/

namespace Infoschema

/-- Modelled from the spec: a case-insensitive string pair carrying both the
original-case spelling `O` and the folded lowercase spelling `L`
(`model.CIStr`).  Lookups by name use the folded form. -/
structure CIStr where
  O : String
  L : String
deriving DecidableEq, Repr

/-- Modelled from the spec: folding a spelling to lower case, character by
character (`strings.ToLower` on the names the engine handles). -/
def foldLower (s : String) : String :=
  { data := s.data.map Char.toLower }

/-- Modelled from the spec: `model.NewCIStr` builds the pair from one
spelling, folding to lower case for the `L` component. -/
def NewCIStr (s : String) : CIStr :=
  { O := s, L := foldLower s }

/-- Modelled from the spec: the temp-table kind of a table,
`∈ {None, Global, Local}` (`model.TempTableType`). -/
inductive TempTableType where
  | noTemp
  | globalTemp
  | localTemp
deriving DecidableEq, Repr

/-- Modelled from the spec: a column descriptor (`model.ColumnInfo`),
restricted to the attributes the verified properties consult. -/
structure ColumnInfo where
  id : Int
  name : CIStr
  offset : Nat
deriving DecidableEq, Repr

/-- Modelled from the spec: a partition definition; its `id` is a distinct
physical-table id in the same id space as tables
(`model.PartitionDefinition`). -/
structure PartitionDefinition where
  id : Int
  name : CIStr
  placementPolicyRef : Option CIStr
deriving DecidableEq, Repr

/-- Modelled from the spec: a table descriptor (`model.TableInfo`),
restricted to the attributes the verified properties consult: id, name,
owning database id, temp-table kind, placement policy reference, partition
definitions and columns. -/
structure TableInfo where
  id : Int
  name : CIStr
  dbID : Int
  tempTableType : TempTableType
  placementPolicyRef : Option CIStr
  partitions : List PartitionDefinition
  cols : List ColumnInfo
deriving DecidableEq, Repr

/-- Modelled from the spec: a database descriptor (`model.DBInfo`) with its
list of tables. -/
structure DBInfo where
  id : Int
  name : CIStr
  tables : List TableInfo
deriving DecidableEq, Repr

/-- Modelled from the spec: a placement policy descriptor
(`model.PolicyInfo`): id and globally-unique name. -/
structure PolicyInfo where
  id : Int
  name : CIStr
deriving DecidableEq, Repr

/-- Modelled from the spec: a resource group descriptor
(`model.ResourceGroupInfo`): id and globally-unique name. -/
structure ResourceGroupInfo where
  id : Int
  name : CIStr
deriving DecidableEq, Repr

/-- Modelled from the spec: a resolved placement bundle for one physical
table id (`placement.Bundle`), reduced to the physical id it governs and
the placement policy it was computed from. -/
structure Bundle where
  physicalID : Int
  policy : CIStr
deriving DecidableEq, Repr

/-- Modelled from the spec: the error taxonomy the engine surfaces
(`ErrDatabaseNotExists`, `ErrTableNotExists`, `ErrTableExists`,
`ErrInvalidDiff`). -/
inductive SchemaError where
  | databaseNotExists
  | tableNotExists
  | tableExists
  | invalidDiff
deriving DecidableEq, Repr

/-- Modelled from the spec: an immutable snapshot of all catalog metadata
(`infoschema.infoSchema`).  `temporaryTablePairs` is the incrementally
maintained cache behind `HasTemporaryTable`: the (owning db id, table id)
pairs of the Global temporary tables the snapshot holds. -/
structure InfoSchema where
  schemaMetaVersion : Int
  databases : List DBInfo
  policies : List PolicyInfo
  resourceGroups : List ResourceGroupInfo
  bundles : List Bundle
  temporaryTablePairs : List (Int × Int)
deriving DecidableEq, Repr

/-- Modelled from the spec: `SchemaByName` resolves a database by folded
name. -/
def InfoSchema.schemaByName (s : InfoSchema) (name : CIStr) : Option DBInfo :=
  s.databases.find? (fun db => decide (db.name.L = name.L))

/-- Modelled from the spec: `SchemaExists`. -/
def InfoSchema.schemaExists (s : InfoSchema) (name : CIStr) : Bool :=
  (s.schemaByName name).isSome

/-- Modelled from the spec: `SchemaByID` resolves a database by id. -/
def InfoSchema.schemaByID (s : InfoSchema) (id : Int) : Option DBInfo :=
  s.databases.find? (fun db => decide (db.id = id))

/-- Modelled from the spec: `TableByID` resolves a table by id across all
databases of the snapshot. -/
def InfoSchema.tableByID (s : InfoSchema) (id : Int) : Option TableInfo :=
  (s.databases.flatMap (fun db => db.tables)).find? (fun t => decide (t.id = id))

/-- Modelled from the spec: `TableByName` first resolves the schema by
folded name, then the table by folded name within it. -/
def InfoSchema.tableByName (s : InfoSchema) (dbName tblName : CIStr) : Option TableInfo :=
  match s.schemaByName dbName with
  | none => none
  | some db => db.tables.find? (fun t => decide (t.name.L = tblName.L))

/-- Modelled from the spec: `TableExists`. -/
def InfoSchema.tableExists (s : InfoSchema) (dbName tblName : CIStr) : Bool :=
  (s.tableByName dbName tblName).isSome

/-- Modelled from the spec: `HasTemporaryTable` is answered from the
maintained cache of Global temp tables. -/
def InfoSchema.hasTemporaryTable (s : InfoSchema) : Bool :=
  !s.temporaryTablePairs.isEmpty

/-- Modelled from the spec: `PlacementBundleByPhysicalTableID`. -/
def InfoSchema.placementBundleByPhysicalTableID (s : InfoSchema) (id : Int) : Option Bundle :=
  s.bundles.find? (fun b => decide (b.physicalID = id))

/-- Modelled from the spec: `AllPlacementPolicies`. -/
def InfoSchema.allPlacementPolicies (s : InfoSchema) : List PolicyInfo :=
  s.policies

/-- Modelled from the spec: `AllResourceGroups`. -/
def InfoSchema.allResourceGroups (s : InfoSchema) : List ResourceGroupInfo :=
  s.resourceGroups

/-- Modelled from the spec: `AllSchemaNames`. -/
def InfoSchema.allSchemaNames (s : InfoSchema) : List CIStr :=
  s.databases.map (fun db => db.name)

/-- Modelled from the spec: the per-session overlay of local temporary
tables (`infoschema.SessionTables`).  Each entry pairs the owning database
record supplied at `AddTable` time with the table descriptor; entries are
keyed by the folded (db name, table name) pair and by table id. -/
structure SessionTables where
  entries : List (DBInfo × TableInfo)
deriving DecidableEq, Repr

/-- Modelled from the spec: a fresh, empty overlay
(`infoschema.NewSessionTables`). -/
def NewSessionTables : SessionTables :=
  { entries := [] }

/-- Modelled from the spec: overlay lookup of the stored (db, table) entry
by folded name pair. -/
def SessionTables.entryByName (sc : SessionTables) (dbName tblName : CIStr) :
    Option (DBInfo × TableInfo) :=
  sc.entries.find? (fun e => decide (e.1.name.L = dbName.L ∧ e.2.name.L = tblName.L))

/-- Modelled from the spec: overlay `TableByName`, over the overlay only. -/
def SessionTables.tableByName (sc : SessionTables) (dbName tblName : CIStr) :
    Option TableInfo :=
  (sc.entryByName dbName tblName).map (fun e => e.2)

/-- Modelled from the spec: overlay `TableExists`. -/
def SessionTables.tableExists (sc : SessionTables) (dbName tblName : CIStr) : Bool :=
  (sc.tableByName dbName tblName).isSome

/-- Modelled from the spec: overlay `TableByID`. -/
def SessionTables.tableByID (sc : SessionTables) (id : Int) : Option TableInfo :=
  (sc.entries.find? (fun e => decide (e.2.id = id))).map (fun e => e.2)

/-- Modelled from the spec: overlay `SchemaByID` resolves the synthetic
database record stored with the overlay's tables. -/
def SessionTables.schemaByID (sc : SessionTables) (id : Int) : Option DBInfo :=
  (sc.entries.find? (fun e => decide (e.1.id = id))).map (fun e => e.1)

/-- Modelled from the spec: overlay `AddTable` inserts a local temporary
table; it fails with `TableExists` when the folded (db name, table name)
pair or the table id is already present in the overlay, and it does not
consult any parent snapshot.  The overlay is returned unchanged on
failure. -/
def SessionTables.addTable (sc : SessionTables) (db : DBInfo) (tbl : TableInfo) :
    Option SchemaError × SessionTables :=
  if sc.entries.any (fun e => decide (e.1.name.L = db.name.L ∧ e.2.name.L = tbl.name.L)) then
    (some .tableExists, sc)
  else if sc.entries.any (fun e => decide (e.2.id = tbl.id)) then
    (some .tableExists, sc)
  else
    (none, { entries := (db, tbl) :: sc.entries })

/-- Modelled from the spec: overlay `RemoveTable` deletes by folded name
pair and reports whether the named table was present. -/
def SessionTables.removeTable (sc : SessionTables) (dbName tblName : CIStr) :
    Bool × SessionTables :=
  if (sc.tableByName dbName tblName).isSome then
    (true,
     { entries := sc.entries.filter
        (fun e => decide (¬(e.1.name.L = dbName.L ∧ e.2.name.L = tblName.L))) })
  else
    (false, sc)

/-- Modelled from the spec: the combined per-session view
(`infoschema.SessionExtendedInfoSchema`): a parent snapshot plus the
overlay of local temporary tables. -/
structure SessionExtendedInfoSchema where
  infoSchema : InfoSchema
  localTemporaryTables : SessionTables
deriving DecidableEq, Repr

/-- Modelled from the spec: composite `TableByName` first consults the
overlay, then the parent snapshot. -/
def SessionExtendedInfoSchema.tableByName (s : SessionExtendedInfoSchema)
    (dbName tblName : CIStr) : Option TableInfo :=
  match s.localTemporaryTables.tableByName dbName tblName with
  | some t => some t
  | none => s.infoSchema.tableByName dbName tblName

/-- Modelled from the spec: composite `TableByID` first consults the
overlay, then the parent snapshot. -/
def SessionExtendedInfoSchema.tableByID (s : SessionExtendedInfoSchema)
    (id : Int) : Option TableInfo :=
  match s.localTemporaryTables.tableByID id with
  | some t => some t
  | none => s.infoSchema.tableByID id

/-- Modelled from the spec: composite `SchemaByID` prefers the global
database record when present and falls back to the overlay's synthetic
record, which supports querying temp tables whose owning database was
dropped from the global snapshot. -/
def SessionExtendedInfoSchema.schemaByID (s : SessionExtendedInfoSchema)
    (id : Int) : Option DBInfo :=
  match s.infoSchema.schemaByID id with
  | some db => some db
  | none => s.localTemporaryTables.schemaByID id

/-- Modelled from the spec: `HasTemporaryTable` of the combined view is a
snapshot property; local temp tables live only in the overlay and do not
set it. -/
def SessionExtendedInfoSchema.hasTemporaryTable (s : SessionExtendedInfoSchema) : Bool :=
  s.infoSchema.hasTemporaryTable

/-- Modelled from the spec: the read-only Meta facade over the KV store
(`meta.Meta`), reduced to the catalog it can return inside the current
transaction. -/
structure Meta where
  dbs : List DBInfo
deriving DecidableEq, Repr

/-- Modelled from the spec: `GetDatabase`. -/
def Meta.getDatabase (m : Meta) (id : Int) : Option DBInfo :=
  m.dbs.find? (fun db => decide (db.id = id))

/-- Modelled from the spec: `GetTable` reads a table descriptor of the
given database. -/
def Meta.getTable (m : Meta) (dbID tblID : Int) : Option TableInfo :=
  match m.getDatabase dbID with
  | none => none
  | some db => db.tables.find? (fun t => decide (t.id = tblID))

/-- Modelled from the spec: the closed set of diff kinds the verified
properties exercise (`model.SchemaDiff` with its `ActionType`), one case
per kind carrying exactly the fields that kind consults. -/
inductive SchemaDiff where
  | createSchema (schemaID : Int)
  | dropSchema (schemaID : Int)
  | createTable (schemaID tableID : Int)
  | dropTable (schemaID tableID : Int)
  | renameTable (schemaID tableID oldSchemaID : Int)
  | truncateTable (schemaID tableID oldTableID : Int)
  | addColumn (schemaID tableID : Int)
  | modifyColumn (schemaID tableID : Int)
deriving DecidableEq, Repr

/-- Modelled from the spec: the (owning db id, table id) cache pairs a
database descriptor contributes for `HasTemporaryTable`: one pair per
Global temp table it holds. -/
def tempPairsOfDB (db : DBInfo) : List (Int × Int) :=
  (db.tables.filter (fun t => decide (t.tempTableType = TempTableType.globalTemp))).map
    (fun t => (db.id, t.id))

/-- Modelled from the spec: the physical table ids of a table: the table id
itself plus the ids of its partition definitions. -/
def physicalIDsOfTable (t : TableInfo) : List Int :=
  t.id :: t.partitions.map (fun pd => pd.id)

/-- Modelled from the spec: the placement bundles computed for one table:
one per physical id that carries a placement policy reference. -/
def bundlesOfTable (t : TableInfo) : List Bundle :=
  (match t.placementPolicyRef with
   | some p => [{ physicalID := t.id, policy := p }]
   | none => []) ++
  t.partitions.filterMap
    (fun pd => pd.placementPolicyRef.map (fun p => { physicalID := pd.id, policy := p }))

/-- Modelled from the spec: insert (replace by id) a database descriptor
into the in-progress snapshot, refreshing the temp-table cache pairs it
owns. -/
def InfoSchema.insertSchema (s : InfoSchema) (db : DBInfo) : InfoSchema :=
  { s with
    databases := (s.databases.filter (fun d => decide (d.id ≠ db.id))) ++ [db],
    temporaryTablePairs :=
      (s.temporaryTablePairs.filter (fun p => decide (p.1 ≠ db.id))) ++ tempPairsOfDB db,
    bundles :=
      (s.bundles.filter
        (fun b => !(db.tables.flatMap physicalIDsOfTable).contains b.physicalID)) ++
      db.tables.flatMap bundlesOfTable }

/-- Modelled from the spec: `DropSchema` removes the database and all its
tables; the temp-table cache pairs owned by that database id go with it. -/
def InfoSchema.removeSchema (s : InfoSchema) (sid : Int) : InfoSchema :=
  { s with
    databases := s.databases.filter (fun d => decide (d.id ≠ sid)),
    temporaryTablePairs := s.temporaryTablePairs.filter (fun p => decide (p.1 ≠ sid)) }

/-- Modelled from the spec: insert (replace by id) a table descriptor under
the database with the given id, rebuilding its placement bundles and its
temp-table cache pair. -/
def InfoSchema.insertTable (s : InfoSchema) (sid : Int) (tbl : TableInfo) : InfoSchema :=
  { s with
    databases := s.databases.map
      (fun db =>
        if db.id = sid then
          { db with tables := (db.tables.filter (fun t => decide (t.id ≠ tbl.id))) ++ [tbl] }
        else db),
    temporaryTablePairs :=
      (s.temporaryTablePairs.filter (fun p => decide (¬(p.1 = sid ∧ p.2 = tbl.id)))) ++
      (if tbl.tempTableType = TempTableType.globalTemp then [(sid, tbl.id)] else []),
    bundles :=
      (s.bundles.filter (fun b => !(physicalIDsOfTable tbl).contains b.physicalID)) ++
      bundlesOfTable tbl }

/-- Modelled from the spec: `DropTable` removes the table with the given id
from the database with the given id, together with its temp-table cache
pair and the bundles of its physical ids. -/
def InfoSchema.removeTableByID (s : InfoSchema) (sid tid : Int) : InfoSchema :=
  let droppedPhys : List Int :=
    (((s.databases.flatMap (fun db => db.tables)).filter
        (fun t => decide (t.id = tid))).flatMap physicalIDsOfTable)
  { s with
    databases := s.databases.map
      (fun db =>
        if db.id = sid then
          { db with tables := db.tables.filter (fun t => decide (t.id ≠ tid)) }
        else db),
    temporaryTablePairs :=
      s.temporaryTablePairs.filter (fun p => decide (¬(p.1 = sid ∧ p.2 = tid))),
    bundles := s.bundles.filter (fun b => !droppedPhys.contains b.physicalID) }

/-- Modelled from the spec: the Builder holding the in-progress snapshot
(`infoschema.Builder`). -/
structure Builder where
  schema : InfoSchema
deriving DecidableEq, Repr

/-- Modelled from the spec: `Build` freezes and returns the snapshot. -/
def Builder.build (b : Builder) : InfoSchema :=
  b.schema

/-- Modelled from the spec: incremental mode `InitWithOldInfoSchema` starts
from the index structures of a prior snapshot. -/
def initWithOldInfoSchema (prev : InfoSchema) : Builder :=
  { schema := prev }

/-- Modelled from the spec: `ApplyDiff` applies one `SchemaDiff` to the
in-progress snapshot, consulting the Meta facade for post-diff descriptors.
Every missing-referent check happens before any mutation, so a failing
apply returns the matching NotExists error together with the Builder
exactly as it was. -/
def Builder.applyDiff (b : Builder) (m : Meta) (d : SchemaDiff) :
    Option SchemaError × Builder :=
  match d with
  | .createSchema sid =>
    match m.getDatabase sid with
    | none => (some .databaseNotExists, b)
    | some db => (none, { schema := b.schema.insertSchema db })
  | .dropSchema sid => (none, { schema := b.schema.removeSchema sid })
  | .createTable sid tid =>
    match b.schema.schemaByID sid with
    | none => (some .databaseNotExists, b)
    | some _ =>
      match m.getTable sid tid with
      | none => (some .tableNotExists, b)
      | some tbl => (none, { schema := b.schema.insertTable sid tbl })
  | .dropTable sid tid => (none, { schema := b.schema.removeTableByID sid tid })
  | .renameTable sid tid oldSid =>
    match b.schema.schemaByID oldSid with
    | none => (some .databaseNotExists, b)
    | some _ =>
      match b.schema.schemaByID sid with
      | none => (some .databaseNotExists, b)
      | some _ =>
        match m.getTable sid tid with
        | none => (some .tableNotExists, b)
        | some tbl =>
          (none, { schema := (b.schema.removeTableByID oldSid tid).insertTable sid tbl })
  | .truncateTable sid tid oldTid =>
    match b.schema.schemaByID sid with
    | none => (some .databaseNotExists, b)
    | some _ =>
      match m.getTable sid tid with
      | none => (some .tableNotExists, b)
      | some tbl =>
        (none, { schema := (b.schema.removeTableByID sid oldTid).insertTable sid tbl })
  | .addColumn sid tid =>
    match b.schema.schemaByID sid with
    | none => (some .databaseNotExists, b)
    | some _ =>
      match m.getTable sid tid with
      | none => (some .tableNotExists, b)
      | some tbl => (none, { schema := b.schema.insertTable sid tbl })
  | .modifyColumn sid tid =>
    match b.schema.schemaByID sid with
    | none => (some .databaseNotExists, b)
    | some _ =>
      match m.getTable sid tid with
      | none => (some .tableNotExists, b)
      | some tbl => (none, { schema := b.schema.insertTable sid tbl })

/-- Modelled from the spec: a whole incremental history: each step applies
one diff with the Meta facade of its enclosing transaction, keeping the
Builder that results (errors leave it untouched). -/
def applyDiffs (b : Builder) (steps : List (Meta × SchemaDiff)) : Builder :=
  steps.foldl (fun acc st => (acc.applyDiff st.1 st.2).2) b

/-- Modelled from the spec: the ids of the two synthesized databases are
allocated from a reserved range disjoint from user ids. -/
def reservedIDBase : Int := 2 ^ 62

/-- Modelled from the spec: the id of the synthetic `information_schema`
database. -/
def infoSchemaDBID : Int := reservedIDBase + 1

/-- Modelled from the spec: the id of the synthetic `metrics_schema`
database. -/
def metricsSchemaDBID : Int := reservedIDBase + 2

/-- Modelled from the spec: the fixed, hard-coded catalog of table names
every snapshot exposes under `information_schema`, regardless of DDL
history. -/
def infoSchemaCatalogNames : List String :=
  ["SCHEMATA", "TABLES", "COLUMNS", "STATISTICS", "CHARACTER_SETS",
   "COLLATIONS", "FILES", "PROFILING", "PARTITIONS", "KEY_COLUMN_USAGE",
   "REFERENTIAL_CONSTRAINTS", "SESSION_VARIABLES", "PLUGINS",
   "TABLE_CONSTRAINTS", "TRIGGERS", "USER_PRIVILEGES", "ENGINES", "VIEWS",
   "ROUTINES", "SCHEMA_PRIVILEGES", "COLUMN_PRIVILEGES", "TABLE_PRIVILEGES",
   "PARAMETERS", "EVENTS", "GLOBAL_STATUS", "GLOBAL_VARIABLES",
   "SESSION_STATUS", "OPTIMIZER_TRACE", "TABLESPACES",
   "COLLATION_CHARACTER_SET_APPLICABILITY", "PROCESSLIST", "TIDB_TRX",
   "DEADLOCKS", "PLACEMENT_POLICIES", "TRX_SUMMARY", "RESOURCE_GROUPS"]

/-- Modelled from the spec: one synthetic catalog table of
`information_schema`, with an id from the reserved range. -/
def mkInfoSchemaTable (p : Nat × String) : TableInfo :=
  { id := reservedIDBase + 16 + Int.ofNat p.1,
    name := NewCIStr p.2,
    dbID := infoSchemaDBID,
    tempTableType := TempTableType.noTemp,
    placementPolicyRef := none,
    partitions := [],
    cols := [] }

/-- Modelled from the spec: the synthetic `information_schema` database
injected into every snapshot, holding the fixed catalog. -/
def informationSchemaDB : DBInfo :=
  { id := infoSchemaDBID,
    name := NewCIStr "information_schema",
    tables := infoSchemaCatalogNames.enum.map mkInfoSchemaTable }

/-- Modelled from the spec: the synthetic `metrics_schema` database
injected into every snapshot (its own fixed table set is not consulted by
the verified properties and is left empty). -/
def metricsSchemaDB : DBInfo :=
  { id := metricsSchemaDBID,
    name := NewCIStr "metrics_schema",
    tables := [] }

/-- Modelled from the spec: full-build mode `InitWithDBInfos` populates all
indices from scratch from the given database descriptors, placement
policies, resource groups and schema version, and injects the two
synthetic meta-schema databases. -/
def initWithDBInfos (dbs : List DBInfo) (policies : List PolicyInfo)
    (resourceGroups : List ResourceGroupInfo) (schemaVersion : Int) : Builder :=
  { schema :=
    { schemaMetaVersion := schemaVersion,
      databases := informationSchemaDB :: metricsSchemaDB :: dbs,
      policies := policies,
      resourceGroups := resourceGroups,
      bundles := dbs.flatMap (fun db => db.tables.flatMap bundlesOfTable),
      temporaryTablePairs :=
        (informationSchemaDB :: metricsSchemaDB :: dbs).flatMap tempPairsOfDB } }

/-- Modelled from the spec: the user databases of a snapshot, its two
synthetic meta-schema databases excluded; these are the descriptors a full
re-build starts from. -/
def InfoSchema.userDatabases (s : InfoSchema) : List DBInfo :=
  s.databases.filter
    (fun db => decide (db.id ≠ infoSchemaDBID ∧ db.id ≠ metricsSchemaDBID))

/-- Modelled from the spec: the data-model invariant that database ids and
table ids share one global id space with globally unique ids, so no
database id coincides with a table id visible in the snapshot. -/
def InfoSchema.idsDisjoint (s : InfoSchema) : Prop :=
  ∀ db ∈ s.databases, ∀ db' ∈ s.databases, ∀ t ∈ db'.tables, db.id ≠ t.id

instance (s : InfoSchema) : Decidable s.idsDisjoint := by
  unfold InfoSchema.idsDisjoint
  infer_instance

/-- The correctness invariant of the incrementally maintained
temp-table cache: a pair (d, i) is cached exactly when a database with id
d visible in the snapshot holds a Global temp table with id i. -/
def tempCacheOK (s : InfoSchema) : Prop :=
  ∀ d i : Int,
    (d, i) ∈ s.temporaryTablePairs ↔
      ∃ db, db ∈ s.databases ∧ db.id = d ∧
        ∃ t, t ∈ db.tables ∧ t.id = i ∧ t.tempTableType = TempTableType.globalTemp

/-- Sample fixture mirroring `TestBasic`: table `T` of database `Test`. -/
def sampleTableT : TableInfo :=
  { id := 2, name := NewCIStr "T", dbID := 3,
    tempTableType := TempTableType.noTemp, placementPolicyRef := none,
    partitions := [],
    cols := [{ id := 1, name := NewCIStr "A", offset := 0 }] }

/-- Sample fixture mirroring `TestBasic`: database `Test` holding `T`. -/
def sampleDBTest : DBInfo :=
  { id := 3, name := NewCIStr "Test", tables := [sampleTableT] }

/-- Sample fixture: the snapshot built from `sampleDBTest` by a full
build at schema version 1. -/
def sampleSnapshot : InfoSchema :=
  (initWithDBInfos [sampleDBTest] [] [] 1).build

/-- Sample fixture mirroring `TestLocalTemporaryTables`: the overlay
database record `db1`. -/
def sampleOverlayDB : DBInfo :=
  { id := 50, name := NewCIStr "db1", tables := [] }

/-- Sample fixture mirroring `TestLocalTemporaryTables`: the local
temporary table `tb1` owned by `db1`. -/
def sampleOverlayTbl : TableInfo :=
  { id := 60, name := NewCIStr "tb1", dbID := 50,
    tempTableType := TempTableType.localTemp, placementPolicyRef := none,
    partitions := [], cols := [] }

/-- Sample fixture: an overlay already holding `db1.tb1`. -/
def sampleOverlay : SessionTables :=
  { entries := [(sampleOverlayDB, sampleOverlayTbl)] }

/-- Sample fixture: the Builder of `TestBasic` right after its full
build. -/
def sampleBuilder : Builder :=
  initWithDBInfos [sampleDBTest] [] [] 1

/-- Sample fixture: a Meta facade that returns no descriptor at all. -/
def emptyMeta : Meta :=
  { dbs := [] }

/-- Sample fixture mirroring scenario S4: the parent snapshot's table
`test.tba` with id 100. -/
def shadowParentTbl : TableInfo :=
  { id := 100, name := NewCIStr "tba", dbID := 90,
    tempTableType := TempTableType.noTemp, placementPolicyRef := none,
    partitions := [], cols := [] }

/-- Sample fixture mirroring scenario S4: the parent database `test`. -/
def shadowParentDB : DBInfo :=
  { id := 90, name := NewCIStr "test", tables := [shadowParentTbl] }

/-- Sample fixture mirroring scenario S4: the parent snapshot. -/
def shadowParent : InfoSchema :=
  (initWithDBInfos [shadowParentDB] [] [] 1).build

/-- Sample fixture mirroring scenario S4: the overlay's synthetic record
for the database owning the local temp table. -/
def shadowOverlayDB : DBInfo :=
  { id := 91, name := NewCIStr "test", tables := [] }

/-- Sample fixture mirroring scenario S4: the local temp table `test.tba`
with id 200 shadowing the global `test.tba`. -/
def shadowTmpTbl : TableInfo :=
  { id := 200, name := NewCIStr "tba", dbID := 91,
    tempTableType := TempTableType.localTemp, placementPolicyRef := none,
    partitions := [], cols := [] }

/-- Sample fixture mirroring scenario S4: the overlay holding the local
temp `test.tba`. -/
def shadowOverlay : SessionTables :=
  (NewSessionTables.addTable shadowOverlayDB shadowTmpTbl).2

/-- Sample fixture mirroring scenario S4: the combined session view. -/
def shadowView : SessionExtendedInfoSchema :=
  { infoSchema := shadowParent, localTemporaryTables := shadowOverlay }

/-- Modelled from the spec: the schema ids a diff references (primary
schema id, plus the old schema id for a rename); the DDL worker only emits
diffs over user ids, never over the reserved meta-schema ids. -/
def diffSchemaIDs : SchemaDiff → List Int
  | .createSchema sid => [sid]
  | .dropSchema sid => [sid]
  | .createTable sid _ => [sid]
  | .dropTable sid _ => [sid]
  | .renameTable sid _ oldSid => [sid, oldSid]
  | .truncateTable sid _ _ => [sid]
  | .addColumn sid _ => [sid]
  | .modifyColumn sid _ => [sid]

/-- The structural invariant behind the meta-schema synthesizer: the two
synthetic databases head the snapshot's database list. -/
def metaSchemasLead (s : InfoSchema) : Prop :=
  ∃ rest, s.databases = informationSchemaDB :: metricsSchemaDB :: rest

/-- Sample fixture mirroring `TestBuildBundle`: the placement policy
`p1`. -/
def samplePolicy : PolicyInfo :=
  { id := 7, name := NewCIStr "p1" }

/-- Sample fixture mirroring `TestBuildBundle`: partitioned table `t1`
with table-level placement `p1` and partition-level placement `p2`. -/
def samplePartitionedTbl : TableInfo :=
  { id := 20, name := NewCIStr "t1", dbID := 21,
    tempTableType := TempTableType.noTemp,
    placementPolicyRef := some (NewCIStr "p1"),
    partitions :=
      [{ id := 22, name := NewCIStr "p1", placementPolicyRef := some (NewCIStr "p2") },
       { id := 23, name := NewCIStr "p2", placementPolicyRef := none }],
    cols := [] }

/-- Sample fixture mirroring `TestBuildBundle`: the database holding the
partitioned table. -/
def sampleBundleDB : DBInfo :=
  { id := 21, name := NewCIStr "test", tables := [samplePartitionedTbl] }

/-!  Theorems.  Each claim of the specification is settled by one theorem
below; helper lemmas shared between them come first. -/

/-- Helper: a `find?` by a decidable property over a filter keeping only
the elements that refute that property returns nothing. -/
theorem find?_filter_not {α : Type} (l : List α) (p : α → Prop) [DecidablePred p] :
    (l.filter (fun a => decide (¬ p a))).find? (fun a => decide (p a)) = none := by
  rw [List.find?_eq_none]
  intro a ha
  have h := (List.mem_filter.mp ha).2
  simp only [decide_eq_true_eq] at h ⊢
  exact h

/-- C9: for every snapshot whose ids respect the shared-id-space
uniqueness invariant, an id that resolves as a table id does not resolve
as a schema id: `schema_by_id(table_id)` returns none. -/
theorem schema_by_id_of_table_id_none (s : InfoSchema) (id : Int) (t : TableInfo)
    (hdisj : s.idsDisjoint) (ht : s.tableByID id = some t) :
    s.schemaByID id = none := by
  have hmem := List.mem_of_find?_eq_some ht
  have htid : t.id = id := by simpa using List.find?_some ht
  rw [InfoSchema.schemaByID, List.find?_eq_none]
  intro db hdb
  simp only [decide_eq_true_eq]
  rcases List.mem_flatMap.mp hmem with ⟨db', hdb', ht'⟩
  intro h
  exact hdisj db hdb db' hdb' t ht' (by rw [h, htid])

/-- Witness for C9: in the snapshot of `TestBasic`, the table id of `T`
resolves as a table but not as a schema. -/
theorem schema_by_id_of_table_id_none_witness :
    sampleSnapshot.schemaByID 2 = none :=
  schema_by_id_of_table_id_none sampleSnapshot 2 sampleTableT (by decide) (by decide)

/-- C10: dually, for every snapshot whose ids respect the shared-id-space
uniqueness invariant, an id that resolves as a schema id does not resolve
as a table id: `table_by_id(db_id)` returns none. -/
theorem table_by_id_of_schema_id_none (s : InfoSchema) (id : Int) (db : DBInfo)
    (hdisj : s.idsDisjoint) (hdb : s.schemaByID id = some db) :
    s.tableByID id = none := by
  have hmem := List.mem_of_find?_eq_some hdb
  have hid : db.id = id := by simpa using List.find?_some hdb
  rw [InfoSchema.tableByID, List.find?_eq_none]
  intro t ht
  simp only [decide_eq_true_eq]
  rcases List.mem_flatMap.mp ht with ⟨db', hdb', ht'⟩
  intro h
  exact hdisj db hmem db' hdb' t ht' (by rw [hid, h])

/-- Witness for C10: in the snapshot of `TestBasic`, the database id of
`Test` resolves as a schema but not as a table. -/
theorem table_by_id_of_schema_id_none_witness :
    sampleSnapshot.tableByID 3 = none :=
  table_by_id_of_schema_id_none sampleSnapshot 3 sampleDBTest (by decide) (by decide)

/-- C6: overlay `add_table(db, table)` fails with `TableExists` exactly
when the folded-case name pair or the table id is already present in the
overlay — a predicate over the overlay's own entries alone, no parent
snapshot being consulted — and a failed `add_table` leaves the overlay
unchanged. -/
theorem add_table_duplicate_fails_unchanged (sc : SessionTables) (db : DBInfo)
    (tbl : TableInfo) :
    ((sc.addTable db tbl).1 = some SchemaError.tableExists ↔
      ((∃ e ∈ sc.entries, e.1.name.L = db.name.L ∧ e.2.name.L = tbl.name.L) ∨
        ∃ e ∈ sc.entries, e.2.id = tbl.id)) ∧
    ((sc.addTable db tbl).1.isSome → (sc.addTable db tbl).2 = sc) := by
  by_cases h1 : sc.entries.any
      (fun e => decide (e.1.name.L = db.name.L ∧ e.2.name.L = tbl.name.L))
  · rw [List.any_eq_true] at h1
    simp only [SessionTables.addTable]
    rw [if_pos]
    · simp only [decide_eq_true_eq] at h1
      simp [h1]
    · rw [List.any_eq_true]
      exact h1
  · by_cases h2 : sc.entries.any (fun e => decide (e.2.id = tbl.id))
    · rw [List.any_eq_true] at h2
      simp only [SessionTables.addTable]
      rw [if_neg h1, if_pos]
      · simp only [decide_eq_true_eq] at h2
        simp [h2]
      · rw [List.any_eq_true]
        exact h2
    · simp only [SessionTables.addTable]
      rw [if_neg h1, if_neg h2]
      rw [List.any_eq_true] at h1 h2
      simp only [decide_eq_true_eq] at h1 h2
      simp [h1, h2]

/-- Witness for C6: re-adding `db1.tb1` to an overlay already holding it
fails with `TableExists` and leaves the overlay unchanged, so the stored
table is still returned by `table_by_name`. -/
theorem add_table_duplicate_fails_unchanged_witness :
    ((sampleOverlay.addTable sampleOverlayDB sampleOverlayTbl).1 =
      some SchemaError.tableExists) ∧
    (sampleOverlay.addTable sampleOverlayDB sampleOverlayTbl).2 = sampleOverlay :=
  ⟨(add_table_duplicate_fails_unchanged sampleOverlay sampleOverlayDB
      sampleOverlayTbl).1.mpr (by decide),
   (add_table_duplicate_fails_unchanged sampleOverlay sampleOverlayDB
      sampleOverlayTbl).2 (by decide)⟩

/-- Helper: a successful overlay `add_table` pushes the entry in front of
the stored entries. -/
theorem addTable_ok_entries (sc : SessionTables) (db : DBInfo) (tbl : TableInfo)
    (hok : (sc.addTable db tbl).1 = none) :
    (sc.addTable db tbl).2 = { entries := (db, tbl) :: sc.entries } := by
  by_cases h1 : sc.entries.any
      (fun e => decide (e.1.name.L = db.name.L ∧ e.2.name.L = tbl.name.L))
  · exfalso
    simp only [SessionTables.addTable] at hok
    rw [if_pos h1] at hok
    exact Option.noConfusion hok
  · by_cases h2 : sc.entries.any (fun e => decide (e.2.id = tbl.id))
    · exfalso
      simp only [SessionTables.addTable] at hok
      rw [if_neg h1, if_pos h2] at hok
      exact Option.noConfusion hok
    · simp only [SessionTables.addTable]
      rw [if_neg h1, if_neg h2]

/-- C7: overlay round-trip.  After a successful `add_table(db, t)`,
`table_by_name(db.name, t.name)` returns exactly `t`, and `table_by_id`,
`table_exists` and `schema_by_id` agree; `remove_table(db.name, t.name)`
then returns true and afterwards `table_by_name` reports the table as not
existing; and `remove_table` returns true exactly when the named table is
present. -/
theorem overlay_round_trip (sc : SessionTables) (db : DBInfo) (tbl : TableInfo)
    (hok : (sc.addTable db tbl).1 = none) :
    ((sc.addTable db tbl).2.tableByName db.name tbl.name = some tbl) ∧
    ((sc.addTable db tbl).2.tableByID tbl.id = some tbl) ∧
    ((sc.addTable db tbl).2.tableExists db.name tbl.name = true) ∧
    ((sc.addTable db tbl).2.schemaByID db.id = some db) ∧
    (((sc.addTable db tbl).2.removeTable db.name tbl.name).1 = true) ∧
    (((sc.addTable db tbl).2.removeTable db.name tbl.name).2.tableByName
        db.name tbl.name = none) ∧
    (∀ dbn tbn : CIStr, (sc.removeTable dbn tbn).1 = sc.tableExists dbn tbn) := by
  rw [addTable_ok_entries sc db tbl hok]
  have hname : (({ entries := (db, tbl) :: sc.entries } : SessionTables).tableByName
      db.name tbl.name) = some tbl := by
    simp [SessionTables.tableByName, SessionTables.entryByName, List.find?]
  refine ⟨hname, ?_, ?_, ?_, ?_, ?_, ?_⟩
  · simp [SessionTables.tableByID, List.find?]
  · simp [SessionTables.tableExists, hname]
  · simp [SessionTables.schemaByID, List.find?]
  · simp [SessionTables.removeTable, hname]
  · simp only [SessionTables.removeTable, hname, Option.isSome_some, if_true]
    simp only [SessionTables.tableByName, SessionTables.entryByName]
    rw [find?_filter_not
      ((db, tbl) :: sc.entries)
      (fun e => e.1.name.L = db.name.L ∧ e.2.name.L = tbl.name.L)]
    rfl
  · intro dbn tbn
    simp only [SessionTables.removeTable, SessionTables.tableExists]
    by_cases h : (sc.tableByName dbn tbn).isSome
    · rw [if_pos h, h]
    · rw [if_neg h]
      simp only [Bool.not_eq_true] at h
      rw [h]

/-- Witness for C7: the round trip on an empty overlay with `db1.tb1`. -/
theorem overlay_round_trip_witness :
    ((NewSessionTables.addTable sampleOverlayDB sampleOverlayTbl).2.tableByName
        sampleOverlayDB.name sampleOverlayTbl.name = some sampleOverlayTbl) ∧
    ((NewSessionTables.addTable sampleOverlayDB sampleOverlayTbl).2.tableByID
        sampleOverlayTbl.id = some sampleOverlayTbl) ∧
    ((NewSessionTables.addTable sampleOverlayDB sampleOverlayTbl).2.tableExists
        sampleOverlayDB.name sampleOverlayTbl.name = true) ∧
    ((NewSessionTables.addTable sampleOverlayDB sampleOverlayTbl).2.schemaByID
        sampleOverlayDB.id = some sampleOverlayDB) ∧
    (((NewSessionTables.addTable sampleOverlayDB sampleOverlayTbl).2.removeTable
        sampleOverlayDB.name sampleOverlayTbl.name).1 = true) ∧
    (((NewSessionTables.addTable sampleOverlayDB sampleOverlayTbl).2.removeTable
        sampleOverlayDB.name sampleOverlayTbl.name).2.tableByName
        sampleOverlayDB.name sampleOverlayTbl.name = none) ∧
    (∀ dbn tbn : CIStr,
      (NewSessionTables.removeTable dbn tbn).1 = NewSessionTables.tableExists dbn tbn) :=
  overlay_round_trip NewSessionTables sampleOverlayDB sampleOverlayTbl (by decide)

/-- C8: name lookups are case-insensitive: `table_by_name` and
`table_exists` — on a session overlay as on a snapshot — agree on any two
case variants of the same database and table names, because lookups key on
the folded lowercase spelling. -/
theorem table_by_name_case_insensitive (sc : SessionTables) (s : InfoSchema)
    (a b a' b' : String) (ha : foldLower a = foldLower a')
    (hb : foldLower b = foldLower b') :
    (sc.tableByName (NewCIStr a) (NewCIStr b) =
      sc.tableByName (NewCIStr a') (NewCIStr b')) ∧
    (sc.tableExists (NewCIStr a) (NewCIStr b) =
      sc.tableExists (NewCIStr a') (NewCIStr b')) ∧
    (s.tableByName (NewCIStr a) (NewCIStr b) =
      s.tableByName (NewCIStr a') (NewCIStr b')) ∧
    (s.tableExists (NewCIStr a) (NewCIStr b) =
      s.tableExists (NewCIStr a') (NewCIStr b')) := by
  have hmain : s.tableByName (NewCIStr a) (NewCIStr b) =
      s.tableByName (NewCIStr a') (NewCIStr b') := by
    simp only [InfoSchema.tableByName, InfoSchema.schemaByName, NewCIStr, ha, hb]
  have hover : sc.tableByName (NewCIStr a) (NewCIStr b) =
      sc.tableByName (NewCIStr a') (NewCIStr b') := by
    simp only [SessionTables.tableByName, SessionTables.entryByName, NewCIStr, ha, hb]
  refine ⟨hover, ?_, hmain, ?_⟩
  · simp only [SessionTables.tableExists, hover]
  · simp only [InfoSchema.tableExists, hmain]

/-- C1: when a diff references a schema or table id for which the Meta
facade returns no descriptor, `apply_diff` returns the matching NotExists
error (`DatabaseNotExists` for CreateSchema, `TableNotExists` for
CreateTable), and any failing `apply_diff`, whatever the diff kind, leaves
the Builder exactly as it was, so a subsequent `build()` yields the same
snapshot as if the failing call had never happened. -/
theorem apply_diff_missing_referent (b : Builder) (m : Meta) (sid tid : Int) :
    (m.getDatabase sid = none →
      b.applyDiff m (SchemaDiff.createSchema sid) =
        (some SchemaError.databaseNotExists, b)) ∧
    ((b.schema.schemaByID sid).isSome → m.getTable sid tid = none →
      b.applyDiff m (SchemaDiff.createTable sid tid) =
        (some SchemaError.tableNotExists, b)) ∧
    (∀ (d : SchemaDiff) (e : SchemaError), (b.applyDiff m d).1 = some e →
      (b.applyDiff m d).2 = b ∧ (b.applyDiff m d).2.build = b.build) := by
  refine ⟨?_, ?_, ?_⟩
  · intro h
    simp [Builder.applyDiff, h]
  · intro h1 h2
    rcases Option.isSome_iff_exists.mp h1 with ⟨db, hdb⟩
    simp [Builder.applyDiff, hdb, h2]
  · intro d e h
    suffices hs : (b.applyDiff m d).2 = b by
      exact ⟨hs, by rw [hs]⟩
    cases d with
    | createSchema sid' =>
      rcases hm : m.getDatabase sid' with _ | db <;>
        simp [Builder.applyDiff, hm] at h ⊢
    | dropSchema sid' =>
      simp [Builder.applyDiff] at h
    | createTable sid' tid' =>
      rcases hs : b.schema.schemaByID sid' with _ | db
      · simp [Builder.applyDiff, hs]
      · rcases ht : m.getTable sid' tid' with _ | tbl <;>
          simp [Builder.applyDiff, hs, ht] at h ⊢
    | dropTable sid' tid' =>
      simp [Builder.applyDiff] at h
    | renameTable sid' tid' oldSid' =>
      rcases ho : b.schema.schemaByID oldSid' with _ | odb
      · simp [Builder.applyDiff, ho]
      · rcases hs : b.schema.schemaByID sid' with _ | db
        · simp [Builder.applyDiff, ho, hs]
        · rcases ht : m.getTable sid' tid' with _ | tbl <;>
            simp [Builder.applyDiff, ho, hs, ht] at h ⊢
    | truncateTable sid' tid' oldTid' =>
      rcases hs : b.schema.schemaByID sid' with _ | db
      · simp [Builder.applyDiff, hs]
      · rcases ht : m.getTable sid' tid' with _ | tbl <;>
          simp [Builder.applyDiff, hs, ht] at h ⊢
    | addColumn sid' tid' =>
      rcases hs : b.schema.schemaByID sid' with _ | db
      · simp [Builder.applyDiff, hs]
      · rcases ht : m.getTable sid' tid' with _ | tbl <;>
          simp [Builder.applyDiff, hs, ht] at h ⊢
    | modifyColumn sid' tid' =>
      rcases hs : b.schema.schemaByID sid' with _ | db
      · simp [Builder.applyDiff, hs]
      · rcases ht : m.getTable sid' tid' with _ | tbl <;>
          simp [Builder.applyDiff, hs, ht] at h ⊢

/-- Witness for C1: against an empty Meta, CreateSchema on id 3 fails with
DatabaseNotExists, CreateTable under the existing db 3 fails with
TableNotExists, and the failing apply leaves the Builder's snapshot
unchanged. -/
theorem apply_diff_missing_referent_witness :
    (sampleBuilder.applyDiff emptyMeta (SchemaDiff.createSchema 3) =
      (some SchemaError.databaseNotExists, sampleBuilder)) ∧
    (sampleBuilder.applyDiff emptyMeta (SchemaDiff.createTable 3 999) =
      (some SchemaError.tableNotExists, sampleBuilder)) ∧
    (sampleBuilder.applyDiff emptyMeta (SchemaDiff.createSchema 3)).2.build =
      sampleBuilder.build :=
  ⟨(apply_diff_missing_referent sampleBuilder emptyMeta 3 999).1 (by decide),
   (apply_diff_missing_referent sampleBuilder emptyMeta 3 999).2.1
      (by decide) (by decide),
   ((apply_diff_missing_referent sampleBuilder emptyMeta 3 999).2.2
      (SchemaDiff.createSchema 3) SchemaError.databaseNotExists (by decide)).2⟩

/-- C4: lookups on the combined session view consult the overlay first and
the parent snapshot second for `table_by_name` and `table_by_id` (so a
local temp table shadows a global table by name while both remain
reachable by their distinct ids), and `schema_by_id` falls back to the
overlay's synthetic database record when the id is absent from the parent
snapshot, returning none when the id is in neither. -/
theorem session_extended_lookup_layering (parent : InfoSchema) (sc : SessionTables) :
    (∀ (dbn tbn : CIStr) (t : TableInfo), sc.tableByName dbn tbn = some t →
      ({ infoSchema := parent, localTemporaryTables := sc } :
        SessionExtendedInfoSchema).tableByName dbn tbn = some t) ∧
    (∀ dbn tbn : CIStr, sc.tableByName dbn tbn = none →
      ({ infoSchema := parent, localTemporaryTables := sc } :
        SessionExtendedInfoSchema).tableByName dbn tbn =
        parent.tableByName dbn tbn) ∧
    (∀ (id : Int) (t : TableInfo), sc.tableByID id = some t →
      ({ infoSchema := parent, localTemporaryTables := sc } :
        SessionExtendedInfoSchema).tableByID id = some t) ∧
    (∀ id : Int, sc.tableByID id = none →
      ({ infoSchema := parent, localTemporaryTables := sc } :
        SessionExtendedInfoSchema).tableByID id = parent.tableByID id) ∧
    (∀ (id : Int) (db : DBInfo), parent.schemaByID id = none →
      sc.schemaByID id = some db →
      ({ infoSchema := parent, localTemporaryTables := sc } :
        SessionExtendedInfoSchema).schemaByID id = some db) ∧
    (∀ id : Int, parent.schemaByID id = none → sc.schemaByID id = none →
      ({ infoSchema := parent, localTemporaryTables := sc } :
        SessionExtendedInfoSchema).schemaByID id = none) := by
  refine ⟨?_, ?_, ?_, ?_, ?_, ?_⟩
  · intro dbn tbn t h
    simp [SessionExtendedInfoSchema.tableByName, h]
  · intro dbn tbn h
    simp [SessionExtendedInfoSchema.tableByName, h]
  · intro id t h
    simp [SessionExtendedInfoSchema.tableByID, h]
  · intro id h
    simp [SessionExtendedInfoSchema.tableByID, h]
  · intro id db hp ho
    simp [SessionExtendedInfoSchema.schemaByID, hp, ho]
  · intro id hp ho
    simp [SessionExtendedInfoSchema.schemaByID, hp, ho]

/-- Witness for C4, scenario S4: the local temp `test.tba` (id 200)
shadows the global `test.tba` (id 100) by name, both remain reachable by
id, the overlay's synthetic db record answers `schema_by_id` for the db id
the parent lacks, and an id in neither resolves to none. -/
theorem session_extended_lookup_layering_witness :
    (shadowView.tableByName (NewCIStr "test") (NewCIStr "tba") = some shadowTmpTbl) ∧
    (shadowView.tableByID 100 = some shadowParentTbl) ∧
    (shadowView.tableByID 200 = some shadowTmpTbl) ∧
    (shadowView.schemaByID 91 = some shadowOverlayDB) ∧
    (shadowView.schemaByID 12345 = none) :=
  ⟨(session_extended_lookup_layering shadowParent shadowOverlay).1
      (NewCIStr "test") (NewCIStr "tba") shadowTmpTbl (by decide),
   ((session_extended_lookup_layering shadowParent shadowOverlay).2.2.2.1
      100 (by decide)).trans (by decide),
   (session_extended_lookup_layering shadowParent shadowOverlay).2.2.1
      200 shadowTmpTbl (by decide),
   (session_extended_lookup_layering shadowParent shadowOverlay).2.2.2.2.1
      91 shadowOverlayDB (by decide) (by decide),
   (session_extended_lookup_layering shadowParent shadowOverlay).2.2.2.2.2
      12345 (by decide) (by decide)⟩

/-- Witness for C8: `DB1`/`Tb1` and `db1`/`tb1` resolve identically on the
sample overlay and the sample snapshot. -/
theorem table_by_name_case_insensitive_witness :
    (sampleOverlay.tableByName (NewCIStr "DB1") (NewCIStr "Tb1") =
      sampleOverlay.tableByName (NewCIStr "db1") (NewCIStr "tb1")) ∧
    (sampleOverlay.tableExists (NewCIStr "DB1") (NewCIStr "Tb1") =
      sampleOverlay.tableExists (NewCIStr "db1") (NewCIStr "tb1")) ∧
    (sampleSnapshot.tableByName (NewCIStr "DB1") (NewCIStr "Tb1") =
      sampleSnapshot.tableByName (NewCIStr "db1") (NewCIStr "tb1")) ∧
    (sampleSnapshot.tableExists (NewCIStr "DB1") (NewCIStr "Tb1") =
      sampleSnapshot.tableExists (NewCIStr "db1") (NewCIStr "tb1")) :=
  table_by_name_case_insensitive sampleOverlay sampleSnapshot
    "DB1" "Tb1" "db1" "tb1" (by decide) (by decide)

/-- Helper: membership in the cache pairs contributed by one database. -/
theorem mem_tempPairsOfDB (db : DBInfo) (d i : Int) :
    (d, i) ∈ tempPairsOfDB db ↔
      d = db.id ∧ ∃ t, t ∈ db.tables ∧ t.id = i ∧
        t.tempTableType = TempTableType.globalTemp := by
  simp only [tempPairsOfDB, List.mem_map, List.mem_filter, decide_eq_true_eq,
    Prod.mk.injEq]
  constructor
  · rintro ⟨t, ⟨ht, hg⟩, hdb, hti⟩
    exact ⟨hdb.symm, t, ht, hti, hg⟩
  · rintro ⟨hd, t, ht, hti, hg⟩
    exact ⟨t, ⟨ht, hg⟩, hd.symm, hti⟩

/-- Helper: inserting a database descriptor preserves the temp-cache
invariant. -/
theorem tempCacheOK_insertSchema (s : InfoSchema) (db : DBInfo)
    (h : tempCacheOK s) : tempCacheOK (s.insertSchema db) := by
  intro d i
  simp only [InfoSchema.insertSchema]
  constructor
  · intro hmem
    rcases List.mem_append.mp hmem with hL | hR
    · have h1 := List.mem_filter.mp hL
      have hne : d ≠ db.id := by simpa using h1.2
      rcases (h d i).mp h1.1 with ⟨db', hdb', hid', t, ht, htid, hg⟩
      refine ⟨db', ?_, hid', t, ht, htid, hg⟩
      apply List.mem_append.mpr
      left
      apply List.mem_filter.mpr
      refine ⟨hdb', ?_⟩
      simp only [decide_eq_true_eq]
      intro hdd
      exact hne (hid' ▸ hdd)
    · rcases (mem_tempPairsOfDB db d i).mp hR with ⟨hd, t, ht, htid, hg⟩
      refine ⟨db, ?_, hd.symm, t, ht, htid, hg⟩
      apply List.mem_append.mpr
      right
      exact List.mem_singleton.mpr rfl
  · rintro ⟨db', hdb', hid', t, ht, htid, hg⟩
    rcases List.mem_append.mp hdb' with hF | hS
    · have h2 := List.mem_filter.mp hF
      have hne : db'.id ≠ db.id := by simpa using h2.2
      apply List.mem_append.mpr
      left
      apply List.mem_filter.mpr
      refine ⟨(h d i).mpr ⟨db', h2.1, hid', t, ht, htid, hg⟩, ?_⟩
      simp only [decide_eq_true_eq]
      intro hdd
      exact hne (by rw [hid', hdd])
    · have hdb'' : db' = db := List.mem_singleton.mp hS
      subst hdb''
      apply List.mem_append.mpr
      right
      exact (mem_tempPairsOfDB db' d i).mpr ⟨hid'.symm, t, ht, htid, hg⟩

/-- Helper: dropping a database preserves the temp-cache invariant. -/
theorem tempCacheOK_removeSchema (s : InfoSchema) (sid : Int)
    (h : tempCacheOK s) : tempCacheOK (s.removeSchema sid) := by
  intro d i
  simp only [InfoSchema.removeSchema]
  constructor
  · intro hmem
    have h1 := List.mem_filter.mp hmem
    have hne : d ≠ sid := by simpa using h1.2
    rcases (h d i).mp h1.1 with ⟨db', hdb', hid', t, ht, htid, hg⟩
    refine ⟨db', ?_, hid', t, ht, htid, hg⟩
    apply List.mem_filter.mpr
    refine ⟨hdb', ?_⟩
    simp only [decide_eq_true_eq]
    intro hdd
    exact hne (hid' ▸ hdd)
  · rintro ⟨db', hdb', hid', t, ht, htid, hg⟩
    have h2 := List.mem_filter.mp hdb'
    have hne : db'.id ≠ sid := by simpa using h2.2
    apply List.mem_filter.mpr
    refine ⟨(h d i).mpr ⟨db', h2.1, hid', t, ht, htid, hg⟩, ?_⟩
    simp only [decide_eq_true_eq]
    intro hdd
    exact hne (by rw [hid', hdd])

/-- Helper: inserting a table under a database id that is present in the
snapshot preserves the temp-cache invariant. -/
theorem tempCacheOK_insertTable (s : InfoSchema) (sid : Int) (tbl : TableInfo)
    (hdb : ∃ db, db ∈ s.databases ∧ db.id = sid) (h : tempCacheOK s) :
    tempCacheOK (s.insertTable sid tbl) := by
  intro d i
  simp only [InfoSchema.insertTable]
  constructor
  · intro hmem
    rcases List.mem_append.mp hmem with hL | hR
    · have h1 := List.mem_filter.mp hL
      have hne : ¬(d = sid ∧ i = tbl.id) := by
        have h2 := h1.2
        simp only [decide_eq_true_eq] at h2
        exact h2
      rcases (h d i).mp h1.1 with ⟨db', hdb', hid', t, ht, htid, hg⟩
      by_cases hcase : db'.id = sid
      · have hd : d = sid := hid'.symm.trans hcase
        have hit : i ≠ tbl.id := fun hh => hne ⟨hd, hh⟩
        refine ⟨{ db' with
            tables := (db'.tables.filter (fun t => decide (t.id ≠ tbl.id))) ++ [tbl] },
          ?_, hid', t, ?_, htid, hg⟩
        · apply List.mem_map.mpr
          exact ⟨db', hdb', by rw [if_pos hcase]⟩
        · apply List.mem_append.mpr
          left
          apply List.mem_filter.mpr
          refine ⟨ht, ?_⟩
          simp only [decide_eq_true_eq]
          intro hti
          exact hit (htid.symm.trans hti)
      · refine ⟨db', ?_, hid', t, ht, htid, hg⟩
        apply List.mem_map.mpr
        exact ⟨db', hdb', by rw [if_neg hcase]⟩
    · by_cases hg : tbl.tempTableType = TempTableType.globalTemp
      · rw [if_pos hg] at hR
        have hpair := List.mem_singleton.mp hR
        have hd : d = sid := (Prod.mk.injEq _ _ _ _ ▸ hpair).1
        have hi : i = tbl.id := (Prod.mk.injEq _ _ _ _ ▸ hpair).2
        rcases hdb with ⟨db0, hdb0, hid0⟩
        refine ⟨{ db0 with
            tables := (db0.tables.filter (fun t => decide (t.id ≠ tbl.id))) ++ [tbl] },
          ?_, ?_, tbl, ?_, hi.symm, hg⟩
        · apply List.mem_map.mpr
          exact ⟨db0, hdb0, by rw [if_pos hid0]⟩
        · rw [show ({ db0 with
            tables := (db0.tables.filter (fun t => decide (t.id ≠ tbl.id))) ++ [tbl] } :
              DBInfo).id = db0.id from rfl, hid0, hd]
        · apply List.mem_append.mpr
          right
          exact List.mem_singleton.mpr rfl
      · rw [if_neg hg] at hR
        exact absurd hR (List.not_mem_nil _)
  · rintro ⟨db', hdb', hid', t, ht, htid, hgt⟩
    rcases List.mem_map.mp hdb' with ⟨db0, hdb0, hf⟩
    by_cases hcase : db0.id = sid
    · have hdbeq : db' = { db0 with
          tables := (db0.tables.filter (fun t => decide (t.id ≠ tbl.id))) ++ [tbl] } := by
        rw [← hf, if_pos hcase]
      have hid0 : db0.id = d := by
        rw [hdbeq] at hid'
        exact hid'
      have htmem : t ∈ (db0.tables.filter (fun t => decide (t.id ≠ tbl.id))) ++ [tbl] := by
        rw [hdbeq] at ht
        exact ht
      rcases List.mem_append.mp htmem with htF | htS
      · have h2 := List.mem_filter.mp htF
        have hti_ne : t.id ≠ tbl.id := by simpa using h2.2
        apply List.mem_append.mpr
        left
        apply List.mem_filter.mpr
        refine ⟨(h d i).mpr ⟨db0, hdb0, hid0, t, h2.1, htid, hgt⟩, ?_⟩
        simp only [decide_eq_true_eq]
        rintro ⟨_, hit⟩
        exact hti_ne (htid.trans hit)
      · have hteq : t = tbl := List.mem_singleton.mp htS
        subst hteq
        have hdsid : d = sid := hid0.symm.trans hcase
        apply List.mem_append.mpr
        right
        rw [if_pos hgt]
        apply List.mem_singleton.mpr
        rw [hdsid, htid]
    · have hdbeq : db' = db0 := by rw [← hf, if_neg hcase]
      subst hdbeq
      apply List.mem_append.mpr
      left
      apply List.mem_filter.mpr
      refine ⟨(h d i).mpr ⟨db', hdb0, hid', t, ht, htid, hgt⟩, ?_⟩
      simp only [decide_eq_true_eq]
      rintro ⟨hds, _⟩
      exact hcase (hid'.trans hds)

/-- Helper: dropping a table preserves the temp-cache invariant. -/
theorem tempCacheOK_removeTableByID (s : InfoSchema) (sid tid : Int)
    (h : tempCacheOK s) : tempCacheOK (s.removeTableByID sid tid) := by
  intro d i
  simp only [InfoSchema.removeTableByID]
  constructor
  · intro hmem
    have h1 := List.mem_filter.mp hmem
    have hne : ¬(d = sid ∧ i = tid) := by
      have h2 := h1.2
      simp only [decide_eq_true_eq] at h2
      exact h2
    rcases (h d i).mp h1.1 with ⟨db', hdb', hid', t, ht, htid, hg⟩
    by_cases hcase : db'.id = sid
    · have hd : d = sid := hid'.symm.trans hcase
      have hit : i ≠ tid := fun hh => hne ⟨hd, hh⟩
      refine ⟨{ db' with tables := db'.tables.filter (fun t => decide (t.id ≠ tid)) },
        ?_, hid', t, ?_, htid, hg⟩
      · apply List.mem_map.mpr
        exact ⟨db', hdb', by rw [if_pos hcase]⟩
      · apply List.mem_filter.mpr
        refine ⟨ht, ?_⟩
        simp only [decide_eq_true_eq]
        intro hti
        exact hit (htid.symm.trans hti)
    · refine ⟨db', ?_, hid', t, ht, htid, hg⟩
      apply List.mem_map.mpr
      exact ⟨db', hdb', by rw [if_neg hcase]⟩
  · rintro ⟨db', hdb', hid', t, ht, htid, hgt⟩
    rcases List.mem_map.mp hdb' with ⟨db0, hdb0, hf⟩
    by_cases hcase : db0.id = sid
    · have hdbeq : db' = { db0 with
          tables := db0.tables.filter (fun t => decide (t.id ≠ tid)) } := by
        rw [← hf, if_pos hcase]
      have hid0 : db0.id = d := by
        rw [hdbeq] at hid'
        exact hid'
      have htmem : t ∈ db0.tables.filter (fun t => decide (t.id ≠ tid)) := by
        rw [hdbeq] at ht
        exact ht
      have h2 := List.mem_filter.mp htmem
      have hti_ne : t.id ≠ tid := by simpa using h2.2
      apply List.mem_filter.mpr
      refine ⟨(h d i).mpr ⟨db0, hdb0, hid0, t, h2.1, htid, hgt⟩, ?_⟩
      simp only [decide_eq_true_eq]
      rintro ⟨_, hit⟩
      exact hti_ne (htid.trans hit)
    · have hdbeq : db' = db0 := by rw [← hf, if_neg hcase]
      subst hdbeq
      apply List.mem_filter.mpr
      refine ⟨(h d i).mpr ⟨db', hdb0, hid', t, ht, htid, hgt⟩, ?_⟩
      simp only [decide_eq_true_eq]
      rintro ⟨hds, _⟩
      exact hcase (hid'.trans hds)

/-- Helper: a positive `SchemaByID` answer exhibits a database with that
id among the snapshot's databases. -/
theorem exists_db_of_schemaByID (s : InfoSchema) (sid : Int) (db : DBInfo)
    (h : s.schemaByID sid = some db) :
    ∃ d, d ∈ s.databases ∧ d.id = sid := by
  refine ⟨db, List.mem_of_find?_eq_some h, ?_⟩
  simpa using List.find?_some h

/-- Helper: dropping a table keeps every database id present in the
snapshot present. -/
theorem exists_db_removeTableByID (s : InfoSchema) (sid tid did : Int)
    (h : ∃ d, d ∈ s.databases ∧ d.id = did) :
    ∃ d, d ∈ (s.removeTableByID sid tid).databases ∧ d.id = did := by
  rcases h with ⟨db, hdb, hid⟩
  simp only [InfoSchema.removeTableByID]
  by_cases hcase : db.id = sid
  · exact ⟨{ db with tables := db.tables.filter (fun t => decide (t.id ≠ tid)) },
      List.mem_map.mpr ⟨db, hdb, by rw [if_pos hcase]⟩, hid⟩
  · exact ⟨db, List.mem_map.mpr ⟨db, hdb, by rw [if_neg hcase]⟩, hid⟩

/-- Helper: one `apply_diff` step preserves the temp-cache invariant,
whatever the diff and whatever Meta returns. -/
theorem tempCacheOK_applyDiff (b : Builder) (m : Meta) (d : SchemaDiff)
    (h : tempCacheOK b.schema) : tempCacheOK ((b.applyDiff m d).2).schema := by
  cases d with
  | createSchema sid =>
    rcases hm : m.getDatabase sid with _ | db
    · simpa [Builder.applyDiff, hm] using h
    · simpa [Builder.applyDiff, hm] using tempCacheOK_insertSchema b.schema db h
  | dropSchema sid =>
    simpa [Builder.applyDiff] using tempCacheOK_removeSchema b.schema sid h
  | createTable sid tid =>
    rcases hs : b.schema.schemaByID sid with _ | db
    · simpa [Builder.applyDiff, hs] using h
    · rcases ht : m.getTable sid tid with _ | tbl
      · simpa [Builder.applyDiff, hs, ht] using h
      · simpa [Builder.applyDiff, hs, ht] using
          tempCacheOK_insertTable b.schema sid tbl
            (exists_db_of_schemaByID b.schema sid db hs) h
  | dropTable sid tid =>
    simpa [Builder.applyDiff] using tempCacheOK_removeTableByID b.schema sid tid h
  | renameTable sid tid oldSid =>
    rcases ho : b.schema.schemaByID oldSid with _ | odb
    · simpa [Builder.applyDiff, ho] using h
    · rcases hs : b.schema.schemaByID sid with _ | db
      · simpa [Builder.applyDiff, ho, hs] using h
      · rcases ht : m.getTable sid tid with _ | tbl
        · simpa [Builder.applyDiff, ho, hs, ht] using h
        · simpa [Builder.applyDiff, ho, hs, ht] using
            tempCacheOK_insertTable (b.schema.removeTableByID oldSid tid) sid tbl
              (exists_db_removeTableByID b.schema oldSid tid sid
                (exists_db_of_schemaByID b.schema sid db hs))
              (tempCacheOK_removeTableByID b.schema oldSid tid h)
  | truncateTable sid tid oldTid =>
    rcases hs : b.schema.schemaByID sid with _ | db
    · simpa [Builder.applyDiff, hs] using h
    · rcases ht : m.getTable sid tid with _ | tbl
      · simpa [Builder.applyDiff, hs, ht] using h
      · simpa [Builder.applyDiff, hs, ht] using
          tempCacheOK_insertTable (b.schema.removeTableByID sid oldTid) sid tbl
            (exists_db_removeTableByID b.schema sid oldTid sid
              (exists_db_of_schemaByID b.schema sid db hs))
            (tempCacheOK_removeTableByID b.schema sid oldTid h)
  | addColumn sid tid =>
    rcases hs : b.schema.schemaByID sid with _ | db
    · simpa [Builder.applyDiff, hs] using h
    · rcases ht : m.getTable sid tid with _ | tbl
      · simpa [Builder.applyDiff, hs, ht] using h
      · simpa [Builder.applyDiff, hs, ht] using
          tempCacheOK_insertTable b.schema sid tbl
            (exists_db_of_schemaByID b.schema sid db hs) h
  | modifyColumn sid tid =>
    rcases hs : b.schema.schemaByID sid with _ | db
    · simpa [Builder.applyDiff, hs] using h
    · rcases ht : m.getTable sid tid with _ | tbl
      · simpa [Builder.applyDiff, hs, ht] using h
      · simpa [Builder.applyDiff, hs, ht] using
          tempCacheOK_insertTable b.schema sid tbl
            (exists_db_of_schemaByID b.schema sid db hs) h

/-- Helper: a whole history of `apply_diff` steps preserves the
temp-cache invariant. -/
theorem tempCacheOK_applyDiffs (steps : List (Meta × SchemaDiff)) :
    ∀ b : Builder, tempCacheOK b.schema → tempCacheOK (applyDiffs b steps).schema := by
  induction steps with
  | nil => exact fun b h => h
  | cons st rest ih =>
    intro b h
    exact ih (b.applyDiff st.1 st.2).2 (tempCacheOK_applyDiff b st.1 st.2 h)

/-- Helper: a full build establishes the temp-cache invariant. -/
theorem tempCacheOK_init (dbs : List DBInfo) (policies : List PolicyInfo)
    (resourceGroups : List ResourceGroupInfo) (v : Int) :
    tempCacheOK (initWithDBInfos dbs policies resourceGroups v).schema := by
  intro d i
  simp only [initWithDBInfos, List.mem_flatMap]
  constructor
  · rintro ⟨db, hdb, hp⟩
    rcases (mem_tempPairsOfDB db d i).mp hp with ⟨hd, t, ht, hti, hg⟩
    exact ⟨db, hdb, hd.symm, t, ht, hti, hg⟩
  · rintro ⟨db, hdb, hid, t, ht, hti, hg⟩
    exact ⟨db, hdb, (mem_tempPairsOfDB db d i).mpr ⟨hid.symm, t, ht, hti, hg⟩⟩

/-- Helper: under the temp-cache invariant, `HasTemporaryTable` answers
exactly whether some Global temp table is visible. -/
theorem hasTemp_iff_of_cacheOK (s : InfoSchema) (h : tempCacheOK s) :
    s.hasTemporaryTable = true ↔
      ∃ db ∈ s.databases, ∃ t ∈ db.tables,
        t.tempTableType = TempTableType.globalTemp := by
  rw [InfoSchema.hasTemporaryTable]
  constructor
  · intro hne
    rcases hp : s.temporaryTablePairs with _ | ⟨a, l⟩
    · rw [hp] at hne
      simp at hne
    · have ha : (a.1, a.2) ∈ s.temporaryTablePairs := by
        rw [hp]
        exact List.mem_cons_self a l
      rcases (h a.1 a.2).mp ha with ⟨db, hdb, _, t, ht, _, hg⟩
      exact ⟨db, hdb, t, ht, hg⟩
  · rintro ⟨db, hdb, t, ht, hg⟩
    have hmem : (db.id, t.id) ∈ s.temporaryTablePairs :=
      (h db.id t.id).mpr ⟨db, hdb, rfl, t, ht, rfl, hg⟩
    rcases hp : s.temporaryTablePairs with _ | ⟨a, l⟩
    · rw [hp] at hmem
      exact absurd hmem (List.not_mem_nil _)
    · rfl

/-- C2: for every snapshot reachable by a full build followed by any
history of `apply_diff` steps, `has_temporary_table()` is true exactly
when at least one Global temp table is present in the snapshot; and local
temp tables living in a session overlay never make it true, because the
combined view answers it from the snapshot alone. -/
theorem has_temporary_table_iff_global_temp (dbs : List DBInfo)
    (policies : List PolicyInfo) (resourceGroups : List ResourceGroupInfo)
    (v : Int) (steps : List (Meta × SchemaDiff)) :
    ((applyDiffs (initWithDBInfos dbs policies resourceGroups v) steps).build.hasTemporaryTable
        = true ↔
      ∃ db ∈ (applyDiffs (initWithDBInfos dbs policies resourceGroups v)
          steps).build.databases,
        ∃ t ∈ db.tables, t.tempTableType = TempTableType.globalTemp) ∧
    (∀ sc : SessionTables,
      ({ infoSchema :=
           (applyDiffs (initWithDBInfos dbs policies resourceGroups v) steps).build,
         localTemporaryTables := sc } :
        SessionExtendedInfoSchema).hasTemporaryTable =
        (applyDiffs (initWithDBInfos dbs policies resourceGroups v)
          steps).build.hasTemporaryTable) := by
  constructor
  · exact hasTemp_iff_of_cacheOK _
      (tempCacheOK_applyDiffs steps _
        (tempCacheOK_init dbs policies resourceGroups v))
  · intro sc
    rfl

/-- C3: full build is idempotent: re-building from the user database
descriptors, placement policies, resource groups and schema version
extracted from a fully built snapshot yields the very same snapshot, so
every observable of the public API — `placement_bundle_by_physical_table_id`
and `has_temporary_table` included — agrees between the two builds. -/
theorem build_idempotent_rebuild (dbs : List DBInfo) (policies : List PolicyInfo)
    (resourceGroups : List ResourceGroupInfo) (v : Int)
    (h : ∀ db ∈ dbs, db.id ≠ infoSchemaDBID ∧ db.id ≠ metricsSchemaDBID) :
    ((initWithDBInfos
        (initWithDBInfos dbs policies resourceGroups v).build.userDatabases
        (initWithDBInfos dbs policies resourceGroups v).build.allPlacementPolicies
        (initWithDBInfos dbs policies resourceGroups v).build.allResourceGroups
        (initWithDBInfos dbs policies resourceGroups v).build.schemaMetaVersion).build =
      (initWithDBInfos dbs policies resourceGroups v).build) ∧
    (∀ id : Int,
      (initWithDBInfos
        (initWithDBInfos dbs policies resourceGroups v).build.userDatabases
        (initWithDBInfos dbs policies resourceGroups v).build.allPlacementPolicies
        (initWithDBInfos dbs policies resourceGroups v).build.allResourceGroups
        (initWithDBInfos dbs policies resourceGroups v).build.schemaMetaVersion).build.placementBundleByPhysicalTableID
          id =
      (initWithDBInfos dbs policies resourceGroups
        v).build.placementBundleByPhysicalTableID id) ∧
    ((initWithDBInfos
        (initWithDBInfos dbs policies resourceGroups v).build.userDatabases
        (initWithDBInfos dbs policies resourceGroups v).build.allPlacementPolicies
        (initWithDBInfos dbs policies resourceGroups v).build.allResourceGroups
        (initWithDBInfos dbs policies resourceGroups v).build.schemaMetaVersion).build.hasTemporaryTable =
      (initWithDBInfos dbs policies resourceGroups v).build.hasTemporaryTable) := by
  have huser : (initWithDBInfos dbs policies resourceGroups v).build.userDatabases = dbs := by
    show (informationSchemaDB :: metricsSchemaDB :: dbs).filter
        (fun db => decide (db.id ≠ infoSchemaDBID ∧ db.id ≠ metricsSchemaDBID)) = dbs
    rw [List.filter_cons_of_neg (by decide), List.filter_cons_of_neg (by decide)]
    exact List.filter_eq_self.mpr (fun db hdb => by
      simp only [decide_eq_true_eq]
      exact h db hdb)
  have hmain : (initWithDBInfos
      (initWithDBInfos dbs policies resourceGroups v).build.userDatabases
      (initWithDBInfos dbs policies resourceGroups v).build.allPlacementPolicies
      (initWithDBInfos dbs policies resourceGroups v).build.allResourceGroups
      (initWithDBInfos dbs policies resourceGroups v).build.schemaMetaVersion).build =
      (initWithDBInfos dbs policies resourceGroups v).build := by
    rw [huser]
    rfl
  exact ⟨hmain, fun id => by rw [hmain], by rw [hmain]⟩

/-- Witness for C3: the rebuild round trip on the bundle fixture of
`TestBuildBundle` (one policy, one partitioned table with table-level and
partition-level placement). -/
theorem build_idempotent_rebuild_witness :
    ((initWithDBInfos
        (initWithDBInfos [sampleBundleDB] [samplePolicy] [] 5).build.userDatabases
        (initWithDBInfos [sampleBundleDB] [samplePolicy] [] 5).build.allPlacementPolicies
        (initWithDBInfos [sampleBundleDB] [samplePolicy] [] 5).build.allResourceGroups
        (initWithDBInfos [sampleBundleDB] [samplePolicy] [] 5).build.schemaMetaVersion).build =
      (initWithDBInfos [sampleBundleDB] [samplePolicy] [] 5).build) ∧
    (∀ id : Int,
      (initWithDBInfos
        (initWithDBInfos [sampleBundleDB] [samplePolicy] [] 5).build.userDatabases
        (initWithDBInfos [sampleBundleDB] [samplePolicy] [] 5).build.allPlacementPolicies
        (initWithDBInfos [sampleBundleDB] [samplePolicy] [] 5).build.allResourceGroups
        (initWithDBInfos [sampleBundleDB] [samplePolicy] []
          5).build.schemaMetaVersion).build.placementBundleByPhysicalTableID id =
      (initWithDBInfos [sampleBundleDB] [samplePolicy] []
        5).build.placementBundleByPhysicalTableID id) ∧
    ((initWithDBInfos
        (initWithDBInfos [sampleBundleDB] [samplePolicy] [] 5).build.userDatabases
        (initWithDBInfos [sampleBundleDB] [samplePolicy] [] 5).build.allPlacementPolicies
        (initWithDBInfos [sampleBundleDB] [samplePolicy] [] 5).build.allResourceGroups
        (initWithDBInfos [sampleBundleDB] [samplePolicy] []
          5).build.schemaMetaVersion).build.hasTemporaryTable =
      (initWithDBInfos [sampleBundleDB] [samplePolicy] [] 5).build.hasTemporaryTable) :=
  build_idempotent_rebuild [sampleBundleDB] [samplePolicy] [] 5 (by decide)

/-- Helper: filtering a cons whose head satisfies the predicate keeps the
head. -/
theorem filter_cons_pos {α : Type} (p : α → Bool) (a : α) (l : List α)
    (h : p a = true) : (a :: l).filter p = a :: l.filter p := by
  simp [List.filter_cons, h]

/-- Helper: inserting a database with a non-reserved id keeps the two
synthetic meta-schema databases at the head of the database list. -/
theorem metaSchemasLead_insertSchema (s : InfoSchema) (db : DBInfo)
    (h1 : db.id ≠ infoSchemaDBID) (h2 : db.id ≠ metricsSchemaDBID)
    (h : metaSchemasLead s) : metaSchemasLead (s.insertSchema db) := by
  rcases h with ⟨rest, hr⟩
  refine ⟨(rest.filter (fun d => decide (d.id ≠ db.id))) ++ [db], ?_⟩
  simp only [InfoSchema.insertSchema, hr]
  rw [filter_cons_pos (fun d => decide (d.id ≠ db.id)) informationSchemaDB
      (metricsSchemaDB :: rest) (decide_eq_true (Ne.symm h1)),
    filter_cons_pos (fun d => decide (d.id ≠ db.id)) metricsSchemaDB rest
      (decide_eq_true (Ne.symm h2))]
  rfl

/-- Helper: dropping a non-reserved schema id keeps the two synthetic
meta-schema databases at the head of the database list. -/
theorem metaSchemasLead_removeSchema (s : InfoSchema) (sid : Int)
    (h1 : sid ≠ infoSchemaDBID) (h2 : sid ≠ metricsSchemaDBID)
    (h : metaSchemasLead s) : metaSchemasLead (s.removeSchema sid) := by
  rcases h with ⟨rest, hr⟩
  refine ⟨rest.filter (fun d => decide (d.id ≠ sid)), ?_⟩
  simp only [InfoSchema.removeSchema, hr]
  rw [filter_cons_pos (fun d => decide (d.id ≠ sid)) informationSchemaDB
      (metricsSchemaDB :: rest) (decide_eq_true (Ne.symm h1)),
    filter_cons_pos (fun d => decide (d.id ≠ sid)) metricsSchemaDB rest
      (decide_eq_true (Ne.symm h2))]

/-- Helper: inserting a table under a non-reserved schema id keeps the two
synthetic meta-schema databases at the head of the database list. -/
theorem metaSchemasLead_insertTable (s : InfoSchema) (sid : Int) (tbl : TableInfo)
    (h1 : sid ≠ infoSchemaDBID) (h2 : sid ≠ metricsSchemaDBID)
    (h : metaSchemasLead s) : metaSchemasLead (s.insertTable sid tbl) := by
  rcases h with ⟨rest, hr⟩
  refine ⟨rest.map (fun db =>
    if db.id = sid then
      { db with tables := (db.tables.filter (fun t => decide (t.id ≠ tbl.id))) ++ [tbl] }
    else db), ?_⟩
  simp only [InfoSchema.insertTable, hr, List.map_cons]
  rw [if_neg (show ¬informationSchemaDB.id = sid from Ne.symm h1),
    if_neg (show ¬metricsSchemaDB.id = sid from Ne.symm h2)]

/-- Helper: dropping a table under a non-reserved schema id keeps the two
synthetic meta-schema databases at the head of the database list. -/
theorem metaSchemasLead_removeTableByID (s : InfoSchema) (sid tid : Int)
    (h1 : sid ≠ infoSchemaDBID) (h2 : sid ≠ metricsSchemaDBID)
    (h : metaSchemasLead s) : metaSchemasLead (s.removeTableByID sid tid) := by
  rcases h with ⟨rest, hr⟩
  refine ⟨rest.map (fun db =>
    if db.id = sid then
      { db with tables := db.tables.filter (fun t => decide (t.id ≠ tid)) }
    else db), ?_⟩
  simp only [InfoSchema.removeTableByID, hr, List.map_cons]
  rw [if_neg (show ¬informationSchemaDB.id = sid from Ne.symm h1),
    if_neg (show ¬metricsSchemaDB.id = sid from Ne.symm h2)]

/-- Helper: one `apply_diff` step over user schema ids keeps the two
synthetic meta-schema databases at the head of the database list. -/
theorem metaSchemasLead_applyDiff (b : Builder) (m : Meta) (d : SchemaDiff)
    (hd : ∀ sid ∈ diffSchemaIDs d, sid ≠ infoSchemaDBID ∧ sid ≠ metricsSchemaDBID)
    (h : metaSchemasLead b.schema) :
    metaSchemasLead ((b.applyDiff m d).2).schema := by
  cases d with
  | createSchema sid =>
    rcases hm : m.getDatabase sid with _ | db
    · simpa [Builder.applyDiff, hm] using h
    · have hid : db.id = sid := by simpa using List.find?_some hm
      have h' := hd sid (by simp [diffSchemaIDs])
      simpa [Builder.applyDiff, hm] using
        metaSchemasLead_insertSchema b.schema db
          (by rw [hid]; exact h'.1) (by rw [hid]; exact h'.2) h
  | dropSchema sid =>
    have h' := hd sid (by simp [diffSchemaIDs])
    simpa [Builder.applyDiff] using
      metaSchemasLead_removeSchema b.schema sid h'.1 h'.2 h
  | createTable sid tid =>
    rcases hs : b.schema.schemaByID sid with _ | db
    · simpa [Builder.applyDiff, hs] using h
    · rcases ht : m.getTable sid tid with _ | tbl
      · simpa [Builder.applyDiff, hs, ht] using h
      · have h' := hd sid (by simp [diffSchemaIDs])
        simpa [Builder.applyDiff, hs, ht] using
          metaSchemasLead_insertTable b.schema sid tbl h'.1 h'.2 h
  | dropTable sid tid =>
    have h' := hd sid (by simp [diffSchemaIDs])
    simpa [Builder.applyDiff] using
      metaSchemasLead_removeTableByID b.schema sid tid h'.1 h'.2 h
  | renameTable sid tid oldSid =>
    rcases ho : b.schema.schemaByID oldSid with _ | odb
    · simpa [Builder.applyDiff, ho] using h
    · rcases hs : b.schema.schemaByID sid with _ | db
      · simpa [Builder.applyDiff, ho, hs] using h
      · rcases ht : m.getTable sid tid with _ | tbl
        · simpa [Builder.applyDiff, ho, hs, ht] using h
        · have h1 := hd sid (by simp [diffSchemaIDs])
          have h2 := hd oldSid (by simp [diffSchemaIDs])
          simpa [Builder.applyDiff, ho, hs, ht] using
            metaSchemasLead_insertTable _ sid tbl h1.1 h1.2
              (metaSchemasLead_removeTableByID b.schema oldSid tid h2.1 h2.2 h)
  | truncateTable sid tid oldTid =>
    rcases hs : b.schema.schemaByID sid with _ | db
    · simpa [Builder.applyDiff, hs] using h
    · rcases ht : m.getTable sid tid with _ | tbl
      · simpa [Builder.applyDiff, hs, ht] using h
      · have h' := hd sid (by simp [diffSchemaIDs])
        simpa [Builder.applyDiff, hs, ht] using
          metaSchemasLead_insertTable _ sid tbl h'.1 h'.2
            (metaSchemasLead_removeTableByID b.schema sid oldTid h'.1 h'.2 h)
  | addColumn sid tid =>
    rcases hs : b.schema.schemaByID sid with _ | db
    · simpa [Builder.applyDiff, hs] using h
    · rcases ht : m.getTable sid tid with _ | tbl
      · simpa [Builder.applyDiff, hs, ht] using h
      · have h' := hd sid (by simp [diffSchemaIDs])
        simpa [Builder.applyDiff, hs, ht] using
          metaSchemasLead_insertTable b.schema sid tbl h'.1 h'.2 h
  | modifyColumn sid tid =>
    rcases hs : b.schema.schemaByID sid with _ | db
    · simpa [Builder.applyDiff, hs] using h
    · rcases ht : m.getTable sid tid with _ | tbl
      · simpa [Builder.applyDiff, hs, ht] using h
      · have h' := hd sid (by simp [diffSchemaIDs])
        simpa [Builder.applyDiff, hs, ht] using
          metaSchemasLead_insertTable b.schema sid tbl h'.1 h'.2 h

/-- Helper: a whole history of user-id `apply_diff` steps keeps the two
synthetic meta-schema databases at the head of the database list. -/
theorem metaSchemasLead_applyDiffs (steps : List (Meta × SchemaDiff)) :
    ∀ b : Builder,
      (∀ st ∈ steps, ∀ sid ∈ diffSchemaIDs st.2,
        sid ≠ infoSchemaDBID ∧ sid ≠ metricsSchemaDBID) →
      metaSchemasLead b.schema → metaSchemasLead (applyDiffs b steps).schema := by
  induction steps with
  | nil => exact fun b _ h => h
  | cons st rest ih =>
    intro b hall h
    exact ih (b.applyDiff st.1 st.2).2
      (fun st' hst' => hall st' (List.mem_cons_of_mem st hst'))
      (metaSchemasLead_applyDiff b st.1 st.2 (hall st (List.mem_cons_self st rest)) h)

/-- Helper: when the synthetic databases head the list,
`schema_by_name(information_schema)` answers the synthetic record. -/
theorem schemaByName_info_of_lead (s : InfoSchema) (h : metaSchemasLead s) :
    s.schemaByName (NewCIStr "information_schema") = some informationSchemaDB := by
  rcases h with ⟨rest, hr⟩
  rw [InfoSchema.schemaByName, hr]
  exact List.find?_cons_of_pos _ (by decide)

/-- Helper: when the synthetic databases head the list,
`schema_by_name(metrics_schema)` answers the synthetic record. -/
theorem schemaByName_metrics_of_lead (s : InfoSchema) (h : metaSchemasLead s) :
    s.schemaByName (NewCIStr "metrics_schema") = some metricsSchemaDB := by
  rcases h with ⟨rest, hr⟩
  rw [InfoSchema.schemaByName, hr]
  rw [List.find?_cons_of_neg _ (by decide)]
  exact List.find?_cons_of_pos _ (by decide)

/-- Helper: every name of the fixed catalog resolves inside the synthetic
`information_schema` database. -/
theorem catalog_tables_resolvable :
    ∀ n ∈ infoSchemaCatalogNames,
      (informationSchemaDB.tables.find?
        (fun t => decide (t.name.L = (NewCIStr n).L))).isSome = true := by
  decide

/-- C5: every snapshot — built from any descriptors, an empty list
included, and mutated by any history of diffs over user schema ids —
exposes the two synthetic databases `information_schema` and
`metrics_schema`, and every name of the fixed hard-coded catalog is
resolvable via `table_by_name` under `information_schema`. -/
theorem meta_schemas_always_present (dbs : List DBInfo)
    (policies : List PolicyInfo) (resourceGroups : List ResourceGroupInfo)
    (v : Int) (steps : List (Meta × SchemaDiff))
    (h : ∀ st ∈ steps, ∀ sid ∈ diffSchemaIDs st.2,
      sid ≠ infoSchemaDBID ∧ sid ≠ metricsSchemaDBID) :
    ((applyDiffs (initWithDBInfos dbs policies resourceGroups v)
        steps).build.schemaExists (NewCIStr "information_schema") = true) ∧
    ((applyDiffs (initWithDBInfos dbs policies resourceGroups v)
        steps).build.schemaExists (NewCIStr "metrics_schema") = true) ∧
    (∀ n ∈ infoSchemaCatalogNames,
      ((applyDiffs (initWithDBInfos dbs policies resourceGroups v)
        steps).build.tableByName (NewCIStr "information_schema")
          (NewCIStr n)).isSome = true) := by
  have hlead : metaSchemasLead
      (applyDiffs (initWithDBInfos dbs policies resourceGroups v) steps).schema :=
    metaSchemasLead_applyDiffs steps (initWithDBInfos dbs policies resourceGroups v)
      h ⟨dbs, rfl⟩
  simp only [Builder.build]
  refine ⟨?_, ?_, ?_⟩
  · rw [InfoSchema.schemaExists, schemaByName_info_of_lead _ hlead]
    rfl
  · rw [InfoSchema.schemaExists, schemaByName_metrics_of_lead _ hlead]
    rfl
  · intro n hn
    rw [InfoSchema.tableByName, schemaByName_info_of_lead _ hlead]
    exact catalog_tables_resolvable n hn

/-- Witness for C5: a build from the empty descriptor list with no diffs
exposes both synthetic databases and the whole catalog. -/
theorem meta_schemas_always_present_witness :
    ((applyDiffs (initWithDBInfos [] [] [] 0) []).build.schemaExists
        (NewCIStr "information_schema") = true) ∧
    ((applyDiffs (initWithDBInfos [] [] [] 0) []).build.schemaExists
        (NewCIStr "metrics_schema") = true) ∧
    (∀ n ∈ infoSchemaCatalogNames,
      ((applyDiffs (initWithDBInfos [] [] [] 0) []).build.tableByName
        (NewCIStr "information_schema") (NewCIStr n)).isSome = true) :=
  meta_schemas_always_present [] [] [] 0 []
    (fun st hst => absurd hst (List.not_mem_nil st))

end Infoschema
